import Mathlib

/-!
Shallow embedding of the DeepSeek CLI core (src/src/handlers/chat_handler.py,
src/src/handlers/error_handler.py, src/src/config/settings.py).

Text is modelled as `List Char` (one entry per Python character), numeric
sampling parameters and timestamps as `ℚ`, machine dictionaries as Lean
structures.  Pure methods become Lean functions; methods that mutate
`self` become functions from state to state (paired with their return
value where the Python method returns one).
-/

/-! ## Character classes (chat_handler.py lines 273-274, 378, 394) -/

/-- Sentence ending markers `('.', '!', '?', '\n', '。', '！', '？')`. -/
def SENTENCE_ENDS : List Char := ['.', '!', '?', '\n', '。', '！', '？']

/-- Pause markers `(',', ';', '，', '；', '\n')`. -/
def PAUSE_INDICATORS : List Char := [',', ';', '，', '；', '\n']

def isSentenceEnd (c : Char) : Bool := SENTENCE_ENDS.contains c

def isPauseIndicator (c : Char) : Bool := PAUSE_INDICATORS.contains c

/-- ASCII whitespace stripped by Python's `str.lstrip()`. -/
def isPySpace (c : Char) : Bool :=
  c = ' ' || c = '\t' || c = '\n' || c = '\r' || c = '\x0b' || c = '\x0c'

/-- `str.lstrip()` on the characters of a string. -/
def lstrip (l : List Char) : List Char := l.dropWhile isPySpace

/-! ## Scanning loops shared by the display-trimming code

`_prepare_final_display_content` scans `start_part` backwards with
`for i in range(len(start_part)-1, max(len(start_part)-200, 0), -1)`,
and both `_prepare_display_content` and `_prepare_final_display_content`
scan a window forwards with `for i, char in enumerate(part[:200])`. -/

/-- Backward scan: largest index `i` with `stop < i ≤ start` such that
`s[i]` is a sentence end (the Python `range(start, stop, -1)` loop,
`stop` exclusive).  Out-of-range reads return `' '`, which is not a
sentence end, so they never produce a hit. -/
def findBreakDown (s : List Char) (stop : Nat) : Nat → Option Nat
  | 0 => none
  | i + 1 =>
    if i + 1 ≤ stop then none
    else if isSentenceEnd (s.getD (i + 1) ' ') then some (i + 1)
    else findBreakDown s stop i

/-- `start_part` trimmed backward to a sentence boundary:
keep everything up to and including the last sentence-end found in the
scanned window, else keep the whole part (chat_handler.py lines 396-399). -/
def headTrim (l : List Char) : List Char :=
  match findBreakDown l (l.length - 200) (l.length - 1) with
  | some i => l.take (i + 1)
  | none => l

/-- Forward scan with fuel: drop characters up to and including the first
sentence end among the first `fuel` characters; `none` when no sentence
end occurs there. -/
def dropToSentence : Nat → List Char → Option (List Char)
  | _, [] => none
  | 0, _ => none
  | fuel + 1, c :: rest =>
    if isSentenceEnd c then some rest else dropToSentence fuel rest

/-- A window trimmed forward to a sentence boundary within its first 200
characters, then left-stripped — the
`for i, char in enumerate(part[:200]): part = part[i+1:].lstrip(); break`
pattern (chat_handler.py lines 379-381 and 401-403). -/
def tailTrim (l : List Char) : List Char :=
  match dropToSentence 200 l with
  | some r => lstrip r
  | none => l

/-! ## settings.py constants used by the core -/

def DEFAULT_MAX_TOKENS : Nat := 4096
def DEFAULT_TEMPERATURE : ℚ := 1
def DEFAULT_MAX_RETRIES : Nat := 3
def DEFAULT_RETRY_DELAY : Nat := 1
def DEFAULT_MAX_RETRY_DELAY : Nat := 16
def MAX_FUNCTIONS : Nat := 128
def MAX_STOP_SEQUENCES : Nat := 16
def MAX_HISTORY_LENGTH : Nat := 100

/-- Temperature presets (settings.py lines 212-218). -/
def TEMPERATURE_PRESETS : List (String × ℚ) :=
  [("coding", 0), ("data", 1), ("chat", 13/10), ("translation", 13/10),
   ("creative", 3/2)]

/-- One entry of `MODEL_CONFIGS` (settings.py lines 41-197).  The purely
descriptive string fields (`display_name`, `version`, `mode`,
`description`) are carried as far as `displayName`; the boolean support
matrix and the numeric limits are kept in full.  `has_reasoning_content`
is present only on the reasoner entry in the source, modelled with a
`false` default. -/
structure ModelConfig where
  name : String
  displayName : String
  provider : String
  contextLength : Nat
  maxTokens : Nat
  defaultMaxTokens : Nat
  supportsJson : Bool
  supportsFunctionCalling : Bool
  supportsStreaming : Bool
  hasReasoningContent : Bool := false
  deriving DecidableEq

/-- `MODEL_CONFIGS` as an association list keyed by the model identifier
(settings.py lines 41-197). -/
def MODEL_CONFIGS : List (String × ModelConfig) :=
  [("deepseek/deepseek-chat",
    { name := "deepseek/deepseek-chat", displayName := "DeepSeek Chat",
      provider := "deepseek", contextLength := 128000, maxTokens := 8192,
      defaultMaxTokens := 4096, supportsJson := true,
      supportsFunctionCalling := true, supportsStreaming := true }),
   ("deepseek/deepseek-coder",
    { name := "deepseek/deepseek-coder", displayName := "DeepSeek Coder",
      provider := "deepseek", contextLength := 128000, maxTokens := 8192,
      defaultMaxTokens := 4096, supportsJson := true,
      supportsFunctionCalling := true, supportsStreaming := true }),
   ("deepseek/deepseek-reasoner",
    { name := "deepseek/deepseek-reasoner", displayName := "DeepSeek Reasoner",
      provider := "deepseek", contextLength := 128000, maxTokens := 64000,
      defaultMaxTokens := 32000, supportsJson := true,
      supportsFunctionCalling := false, supportsStreaming := true,
      hasReasoningContent := true }),
   ("gpt-4o",
    { name := "gpt-4o", displayName := "GPT-4o", provider := "openai",
      contextLength := 128000, maxTokens := 16384, defaultMaxTokens := 4096,
      supportsJson := true, supportsFunctionCalling := true,
      supportsStreaming := true }),
   ("gpt-4o-mini",
    { name := "gpt-4o-mini", displayName := "GPT-4o Mini", provider := "openai",
      contextLength := 128000, maxTokens := 16384, defaultMaxTokens := 4096,
      supportsJson := true, supportsFunctionCalling := true,
      supportsStreaming := true }),
   ("gpt-4-turbo",
    { name := "gpt-4-turbo", displayName := "GPT-4 Turbo", provider := "openai",
      contextLength := 128000, maxTokens := 4096, defaultMaxTokens := 4096,
      supportsJson := true, supportsFunctionCalling := true,
      supportsStreaming := true }),
   ("claude-3-5-sonnet-20241022",
    { name := "claude-3-5-sonnet-20241022", displayName := "Claude 3.5 Sonnet",
      provider := "anthropic", contextLength := 200000, maxTokens := 8192,
      defaultMaxTokens := 4096, supportsJson := true,
      supportsFunctionCalling := true, supportsStreaming := true }),
   ("claude-3-5-haiku-20241022",
    { name := "claude-3-5-haiku-20241022", displayName := "Claude 3.5 Haiku",
      provider := "anthropic", contextLength := 200000, maxTokens := 8192,
      defaultMaxTokens := 4096, supportsJson := true,
      supportsFunctionCalling := true, supportsStreaming := true }),
   ("gemini/gemini-2.0-flash-exp",
    { name := "gemini/gemini-2.0-flash-exp", displayName := "Gemini 2.0 Flash",
      provider := "gemini", contextLength := 1000000, maxTokens := 8192,
      defaultMaxTokens := 4096, supportsJson := true,
      supportsFunctionCalling := true, supportsStreaming := true }),
   ("gemini/gemini-1.5-pro",
    { name := "gemini/gemini-1.5-pro", displayName := "Gemini 1.5 Pro",
      provider := "gemini", contextLength := 2000000, maxTokens := 8192,
      defaultMaxTokens := 4096, supportsJson := true,
      supportsFunctionCalling := true, supportsStreaming := true }),
   ("ollama/llama3.2",
    { name := "ollama/llama3.2", displayName := "Llama 3.2 (Local)",
      provider := "ollama", contextLength := 128000, maxTokens := 4096,
      defaultMaxTokens := 2048, supportsJson := true,
      supportsFunctionCalling := true, supportsStreaming := true }),
   ("ollama/qwen2.5",
    { name := "ollama/qwen2.5", displayName := "Qwen 2.5 (Local)",
      provider := "ollama", contextLength := 128000, maxTokens := 4096,
      defaultMaxTokens := 2048, supportsJson := true,
      supportsFunctionCalling := true, supportsStreaming := true })]

/-- `model in MODEL_CONFIGS` / `MODEL_CONFIGS[model]`. -/
def lookupConfig (model : String) : Option ModelConfig :=
  MODEL_CONFIGS.lookup model

/-! ## Messages and session state (chat_handler.py, `ChatHandler.__init__`) -/

/-- One conversation message.  Python stores `{"role": ..., "content": ...}`
dicts; the prefix-mode rewrite additionally sets `"prefix": True`, modelled
here by `prefixFlag` (absent key ≡ `false`). -/
structure Message where
  role : String
  content : List Char
  prefixFlag : Bool := false
  deriving DecidableEq, Inhabited

/-- Streaming output configuration (`self.stream_config`, chat_handler.py
lines 58-68). -/
structure StreamConfig where
  bufferSizeChars : Nat := 50
  bufferSizeTokens : Nat := 15
  timeThreshold : ℚ := 1/5
  maxVisibleChars : Nat := 8000
  scrollBuffer : Nat := 1000
  refreshRate : Nat := 8
  minBufferForSentence : Nat := 20
  minBufferForTime : Nat := 10
  minBufferForPause : Nat := 30
  deriving DecidableEq

/-- The mutable fields of `ChatHandler` (chat_handler.py lines 40-68).
Function specs are opaque payloads; `includeUsage` is the single key of
`self.stream_options = {"include_usage": True}`.  The `Console` handle and
the version-check side effect carry no session state and are omitted. -/
structure ChatState where
  messages : List Message
  model : String
  stream : Bool
  jsonMode : Bool
  maxTokens : Nat
  functions : List (List Char)
  prefixMode : Bool
  temperature : ℚ
  frequencyPenalty : ℚ
  presencePenalty : ℚ
  topP : ℚ
  stopSequences : List (List Char)
  includeUsage : Bool
  streamConfig : StreamConfig
  deriving DecidableEq

/-- `ChatHandler.__init__` with the default `stream=True`. -/
def initChatState : ChatState :=
  { messages := [], model := "deepseek-chat", stream := true,
    jsonMode := false, maxTokens := DEFAULT_MAX_TOKENS, functions := [],
    prefixMode := false, temperature := DEFAULT_TEMPERATURE,
    frequencyPenalty := 0, presencePenalty := 0, topP := 1,
    stopSequences := [], includeUsage := true, streamConfig := {} }

/-- `ChatHandler.set_system_message` (lines 77-82): insert a system message
at position 0 when none is there, else overwrite its content. -/
def setSystemMessage (st : ChatState) (content : List Char) : ChatState :=
  match st.messages with
  | [] => { st with messages := [{ role := "system", content := content }] }
  | m :: rest =>
    if m.role = "system" then
      { st with messages := { m with content := content } :: rest }
    else
      { st with messages := { role := "system", content := content } :: m :: rest }

/-- Content installed by `toggle_json_mode` when JSON mode turns on. -/
def jsonOnContent : List Char :=
  "You are a helpful assistant. Please provide all responses in valid JSON format.".toList

/-- Content installed by `toggle_json_mode` when JSON mode turns off. -/
def jsonOffContent : List Char := "You are a helpful assistant.".toList

/-- `ChatHandler.toggle_json_mode` (lines 84-90). -/
def toggleJsonMode (st : ChatState) : ChatState :=
  let st1 := { st with jsonMode := !st.jsonMode }
  if st1.jsonMode then setSystemMessage st1 jsonOnContent
  else setSystemMessage st1 jsonOffContent

/-- `ChatHandler.switch_model` (lines 96-102).  Returns the `bool` result
paired with the updated state. -/
def switchModel (st : ChatState) (model : String) : Bool × ChatState :=
  match lookupConfig model with
  | some cfg => (true, { st with model := model, maxTokens := cfg.maxTokens })
  | none => (false, st)

/-- `temp_str.lower()`, modelled character by character (the preset names
being ASCII, ASCII lowercasing is the relevant fragment). -/
def pyToLower (s : String) : String := String.mk (s.toList.map Char.toLower)

/-- Input to `set_temperature`: the Python method first tries
`float(temp_str)`; `num q` is a string that parses as the float `q`,
`name s` is a string that raises `ValueError` on parsing. -/
inductive TempInput where
  | num : ℚ → TempInput
  | name : String → TempInput

/-- `ChatHandler.set_temperature` (lines 104-119). -/
def setTemperature (st : ChatState) : TempInput → Bool × ChatState
  | .num t =>
    if 0 ≤ t ∧ t ≤ 2 then (true, { st with temperature := t }) else (false, st)
  | .name s =>
    match TEMPERATURE_PRESETS.lookup (pyToLower s) with
    | some v => (true, { st with temperature := v })
    | none => (false, st)

/-- `ChatHandler.set_frequency_penalty` (lines 121-126). -/
def setFrequencyPenalty (st : ChatState) (penalty : ℚ) : Bool × ChatState :=
  if -2 ≤ penalty ∧ penalty ≤ 2 then
    (true, { st with frequencyPenalty := penalty })
  else (false, st)

/-- `ChatHandler.set_presence_penalty` (lines 128-133). -/
def setPresencePenalty (st : ChatState) (penalty : ℚ) : Bool × ChatState :=
  if -2 ≤ penalty ∧ penalty ≤ 2 then
    (true, { st with presencePenalty := penalty })
  else (false, st)

/-- `ChatHandler.set_top_p` (lines 135-140). -/
def setTopP (st : ChatState) (topP : ℚ) : Bool × ChatState :=
  if 0 ≤ topP ∧ topP ≤ 1 then (true, { st with topP := topP })
  else (false, st)

/-- `ChatHandler.add_message` (lines 465-473), at the level of the message
list `self.messages`: append, then when the cap is exceeded keep the
system head (if any) plus the newest `MAX_HISTORY_LENGTH - 1` messages,
else the newest `MAX_HISTORY_LENGTH` messages.  Python's negative slice
`l[-k:]` is `List.drop (l.length - k)`. -/
def addMessage (msgs : List Message) (role : String) (content : List Char) :
    List Message :=
  let m := msgs ++ [{ role := role, content := content }]
  if MAX_HISTORY_LENGTH < m.length then
    if m.headI.role = "system" then
      m.headI :: m.drop (m.length - (MAX_HISTORY_LENGTH - 1))
    else m.drop (m.length - MAX_HISTORY_LENGTH)
  else m

/-- `ChatHandler.add_message` acting on the whole handler state. -/
def stateAddMessage (st : ChatState) (role : String) (content : List Char) :
    ChatState :=
  { st with messages := addMessage st.messages role content }

/-! ## Request composer (`ChatHandler.prepare_chat_request`, lines 171-210) -/

/-- The request descriptor (`kwargs`).  Optional fields model dict keys
that are only sometimes set; `streamOptions` carries the single
`include_usage` flag when present. -/
structure Request where
  model : String
  messages : List Message
  stream : Bool
  maxTokens : Nat
  temperature : Option ℚ := none
  frequencyPenalty : Option ℚ := none
  presencePenalty : Option ℚ := none
  topP : Option ℚ := none
  responseFormat : Option String := none
  tools : Option (List (List Char)) := none
  stop : Option (List (List Char)) := none
  streamOptions : Option Bool := none
  deriving DecidableEq

/-- `ChatHandler.prepare_chat_request`.  In Python, `kwargs["messages"]`
aliases `self.messages`, and the prefix-mode branch then assigns
`self.messages[-1] = {...}` — an in-place update of that shared list, so
both the returned payload and the stored history see the rewritten
message.  The embedding computes the rewritten list once and stores it in
both places.  The sampling/json/tools block is guarded by the literal
comparison `self.model != "deepseek-reasoner"`. -/
def prepareChatRequest (st : ChatState) : Request × ChatState :=
  let lastIsUser : Bool :=
    match st.messages.getLast? with
    | some m => m.role == "user"
    | none => false
  let msgs :=
    if st.prefixMode && lastIsUser then
      match st.messages.getLast? with
      | some m =>
        st.messages.dropLast ++
          [{ role := "assistant", content := m.content, prefixFlag := true }]
      | none => st.messages
    else st.messages
  let notReasoner : Bool := st.model != "deepseek-reasoner"
  ({ model := st.model
     messages := msgs
     stream := st.stream
     maxTokens := st.maxTokens
     temperature := if notReasoner then some st.temperature else none
     frequencyPenalty := if notReasoner then some st.frequencyPenalty else none
     presencePenalty := if notReasoner then some st.presencePenalty else none
     topP := if notReasoner then some st.topP else none
     responseFormat :=
       if notReasoner && st.jsonMode then some "json_object" else none
     tools := if notReasoner && !st.functions.isEmpty then some st.functions
              else none
     stop := if !st.stopSequences.isEmpty then some st.stopSequences else none
     streamOptions := if st.stream then some st.includeUsage else none },
   { st with messages := msgs })

/-! ## Streaming flow controller (`ChatHandler.stream_response`,
lines 261-367, and the two display-window helpers) -/

/-- One streamed chunk: `content` is `delta.content` (`none` both when the
delta is absent and when the content is `None`), `time` is the value
`time.time()` reads when the chunk is processed. -/
structure Chunk where
  content : Option (List Char)
  time : ℚ

/-- One `live.update` call: the full accumulated text at that moment and
the rendered display content. -/
structure FlushEvent where
  accumulated : List Char
  display : List Char
  deriving DecidableEq

/-- Loop state of `stream_response`. -/
structure StreamState where
  fullResponse : List Char
  buffer : List Char
  lastUpdateTime : ℚ
  flushes : List FlushEvent
  chunkCount : Nat

/-- `ChatHandler._prepare_display_content` (lines 369-384): scrolling
window for mid-stream rendering. -/
def prepareDisplayContent (fullResponse : List Char) (responseLength : Nat)
    (maxVisibleChars scrollBuffer : Nat) : List Char :=
  if responseLength ≤ maxVisibleChars then fullResponse
  else
    let truncateStart := responseLength - maxVisibleChars + scrollBuffer
    "...\n\n".toList ++ tailTrim (fullResponse.drop truncateStart)

/-- Elision marker inserted by the final-render pass (line 406). -/
def elisionMarker : List Char :=
  "\n\n...[Content too long, some parts omitted]...\n\n".toList

/-- `ChatHandler._prepare_final_display_content` (lines 386-406):
head+tail preservation for the final render.  `full_response[-(k):]` with
`k = max_visible_chars - 2200` is `List.drop (length - k)` (the
configured budgets keep `max_visible_chars ≥ 2200`). -/
def prepareFinalDisplayContent (fullResponse : List Char)
    (maxVisibleChars : Nat) : List Char :=
  if fullResponse.length ≤ maxVisibleChars then fullResponse
  else
    let startPart := fullResponse.take 2000
    let endPart := fullResponse.drop (fullResponse.length - (maxVisibleChars - 2200))
    headTrim startPart ++ elisionMarker ++ tailTrim endPart

/-- The five flush conditions of `stream_response` (lines 295-324), in
their `if`/`elif` order: buffer-size threshold, sentence end with a floor,
time threshold with a floor, pause marker in the last five characters
with a floor, forced refresh at twice the buffer size. -/
def shouldRefresh (cfg : StreamConfig) (buf : List Char)
    (timeSinceLastUpdate : ℚ) : Bool :=
  let bufferLength := buf.length
  if cfg.bufferSizeChars ≤ bufferLength then true
  else if cfg.minBufferForSentence ≤ bufferLength && buf.any isSentenceEnd
    then true
  else if cfg.timeThreshold ≤ timeSinceLastUpdate &&
          cfg.minBufferForTime ≤ bufferLength then true
  else if cfg.minBufferForPause ≤ bufferLength &&
          (buf.drop (bufferLength - 5)).any isPauseIndicator then true
  else cfg.bufferSizeChars * 2 ≤ bufferLength

/-- Body of the `for chunk in response` loop (lines 281-343): accumulate,
evaluate the five flush conditions in their `if`/`elif` order, and on
refresh render the scrolled window, clear the buffer and reset the clock. -/
def streamStep (cfg : StreamConfig) (s : StreamState) (ch : Chunk) :
    StreamState :=
  match ch.content with
  | none => s
  | some content =>
    let full := s.fullResponse ++ content
    let buf := s.buffer ++ content
    let cnt := s.chunkCount + 1
    let timeSinceLastUpdate := ch.time - s.lastUpdateTime
    let responseLength := full.length
    if shouldRefresh cfg buf timeSinceLastUpdate then
      { fullResponse := full, buffer := [], lastUpdateTime := ch.time,
        flushes := s.flushes ++
          [{ accumulated := full,
             display := prepareDisplayContent full responseLength
               cfg.maxVisibleChars cfg.scrollBuffer }],
        chunkCount := cnt }
    else
      { fullResponse := full, buffer := buf,
        lastUpdateTime := s.lastUpdateTime, flushes := s.flushes,
        chunkCount := cnt }

/-- `ChatHandler.stream_response` on the non-error path: fold the chunk
sequence through `streamStep`, then when any content arrived render the
final display and fold the full accumulated text into history.  Returns
the updated message list, the method's return value (`full_response`) and
the trace of `live.update` calls. -/
def streamResponse (cfg : StreamConfig) (messages : List Message)
    (startTime : ℚ) (chunks : List Chunk) :
    List Message × List Char × List FlushEvent :=
  let s := chunks.foldl (streamStep cfg)
    { fullResponse := [], buffer := [], lastUpdateTime := startTime,
      flushes := [], chunkCount := 0 }
  if s.fullResponse.isEmpty then (messages, s.fullResponse, s.flushes)
  else
    (messages ++ [{ role := "assistant", content := s.fullResponse }],
     s.fullResponse,
     s.flushes ++
       [{ accumulated := s.fullResponse,
          display := prepareFinalDisplayContent s.fullResponse
            cfg.maxVisibleChars }])

/-! ## Retry/backoff engine (`error_handler.py`) -/

/-- An API error as `handle_error` observes it: `isinstance(e,
RateLimitError)`, `getattr(e, 'status_code', None)`, `getattr(e, 'code',
None)` and the parsed `retry-after` header (`int(...)` of
`e.headers.get('retry-after', ...)` when the header is present). -/
structure ApiError where
  isRateLimitError : Bool
  statusCode : Option Nat
  errorCode : Option String
  retryAfterHeader : Option Nat
  deriving DecidableEq

/-- `self.status_messages` (error_handler.py lines 24-53): status code,
message, solution. -/
def statusMessages : List (Nat × String × String) :=
  [(400, "Bad request - check your input parameters",
    "Verify your request format and parameters"),
   (401, "Authentication failed",
    "Check your API key or request new credentials"),
   (403, "Forbidden - insufficient permissions",
    "Verify your account permissions and API key scope"),
   (404, "Resource not found",
    "Check the requested endpoint or model name"),
   (429, "Rate limit exceeded",
    "Please wait before making more requests"),
   (500, "Internal server error",
    "Try again later or contact support"),
   (503, "Service unavailable",
    "The service is temporarily unavailable, please try again later")]

/-- Answers the interactive `input()` prompts would give: whether the user
supplies a new API key on a 401, and whether they confirm retry on
500/503. -/
structure InteractiveAnswers where
  enterNewKey : Bool
  confirmRetry : Bool

/-- `ErrorHandler.handle_error` (lines 55-91) with `retry_delay` at its
default `DEFAULT_RETRY_DELAY`.  Returns `some "retry"` or `none`
(the Python return value), paired with the list of `time.sleep` durations
the call performs (the rate-limit branch sleeps `retry_after` itself). -/
def handleError (e : ApiError) (hasApiClient : Bool)
    (ans : InteractiveAnswers) : Option String × List Nat :=
  if e.isRateLimitError || e.statusCode == some 429 then
    let retryAfter := e.retryAfterHeader.getD DEFAULT_RETRY_DELAY
    (some "retry", [retryAfter])
  else
    match e.statusCode with
    | some code =>
      if (statusMessages.map (·.1)).contains code then
        if code = 401 ∧ hasApiClient then
          if ans.enterNewKey then (some "retry", []) else (none, [])
        else if code = 500 ∨ code = 503 then
          if ans.confirmRetry then (some "retry", []) else (none, [])
        else (none, [])
      else (none, [])
    | none => (none, [])

/-- Terminal status of a bounded observation of `retry_with_backoff`. -/
inductive RetryOutcome (α : Type) where
  | success : α → RetryOutcome α
  | raised : ApiError → RetryOutcome α
  | running : RetryOutcome α
  deriving DecidableEq

/-- `ErrorHandler.retry_with_backoff` (lines 93-105), observed for `fuel`
loop iterations.  `attempts k` is the outcome of the `k`-th call of
`func` (0-indexed); `currentDelay` starts at `self.retry_delay`.  The
function returns the accumulated `time.sleep` log, the number of attempts
made, and the outcome — `.running` meaning the `while True:` loop is
still going after `fuel` iterations.  Per iteration the loop calls
`func`, and on a `"retry"` classification sleeps `current_delay`
(after `handle_error`'s own sleeps) and doubles it up to
`max_retry_delay`; on any other classification it re-raises. -/
def retryWithBackoff {α : Type} (attempts : Nat → Except ApiError α)
    (hasApiClient : Bool) (ans : InteractiveAnswers) (maxRetryDelay : Nat) :
    Nat → Nat → Nat → List Nat → List Nat × Nat × RetryOutcome α
  | 0, _, attemptIdx, sleeps => (sleeps, attemptIdx, .running)
  | fuel + 1, currentDelay, attemptIdx, sleeps =>
    match attempts attemptIdx with
    | .ok a => (sleeps, attemptIdx + 1, .success a)
    | .error e =>
      let r := handleError e hasApiClient ans
      if r.1 = some "retry" then
        retryWithBackoff attempts hasApiClient ans maxRetryDelay fuel
          (min (currentDelay * 2) maxRetryDelay) (attemptIdx + 1)
          (sleeps ++ r.2 ++ [currentDelay])
      else (sleeps ++ r.2, attemptIdx + 1, .raised e)

/-- A rate-limited error with no server-provided retry hint. -/
def rateLimitNoHint : ApiError :=
  { isRateLimitError := true, statusCode := some 429, errorCode := none,
    retryAfterHeader := none }

/-- A transport call that fails rate-limited on every attempt. -/
def alwaysRateLimited : Nat → Except ApiError Unit :=
  fun _ => .error rateLimitNoHint

/-! ## Concrete inputs used by the claim theorems -/

/-- A session in prefix mode whose last (only) message is a user message. -/
def cexC2State : ChatState :=
  { initChatState with
    prefixMode := true
    messages := [{ role := "user", content := "hi".toList }] }

/-- The session after switching to the catalog's reasoner model. -/
def reasonerState : ChatState :=
  (switchModel initChatState "deepseek/deepseek-reasoner").2

/-- A one-message history satisfying the system-message invariant. -/
def cexC5Msgs : List Message := [{ role := "user", content := ['a'] }]

/-- The three fragments of the streaming test vector, with arbitrary
arrival times. -/
def c6Chunks (t1 t2 t3 : ℚ) : List Chunk :=
  [{ content := some "Hello, ".toList, time := t1 },
   { content := some "world.".toList, time := t2 },
   { content := some " Bye".toList, time := t3 }]

/-- A 10,000-character accumulated text with no sentence terminator. -/
def aText : List Char := List.replicate 10000 'a'

/-- History invariant on the stored message list: every message after
position 0 has a non-`system` role — equivalently, if a system message is
present it is unique and sits at position 0. -/
def noSystemAfterHead (msgs : List Message) : Prop :=
  ∀ m ∈ msgs.drop 1, m.role ≠ "system"

instance (msgs : List Message) : Decidable (noSystemAfterHead msgs) := by
  unfold noSystemAfterHead; infer_instance

/-! ## Helper lemmas -/

/-- Each loop iteration of `stream_response` extends `full_response` by
exactly the chunk's content, whatever the flush decision. -/
theorem streamStep_fullResponse (cfg : StreamConfig) (s : StreamState)
    (ch : Chunk) :
    (streamStep cfg s ch).fullResponse = s.fullResponse ++ ch.content.getD [] := by
  cases hc : ch.content with
  | none => simp [streamStep, hc]
  | some c =>
    simp only [streamStep, hc, Option.getD_some]
    split <;> rfl

/-- Folding a chunk list accumulates exactly the concatenation of the
contents that were present. -/
theorem foldl_streamStep_fullResponse (cfg : StreamConfig) :
    ∀ (chunks : List Chunk) (s : StreamState),
    (chunks.foldl (streamStep cfg) s).fullResponse =
      s.fullResponse ++ (chunks.filterMap Chunk.content).flatten := by
  intro chunks
  induction chunks with
  | nil => intro s; simp
  | cons ch rest ih =>
    intro s
    rw [List.foldl_cons, ih, streamStep_fullResponse]
    cases hc : ch.content with
    | none => simp [hc]
    | some c => simp [hc]

/-- The backward sentence scan finds nothing when no position of the text
(nor the out-of-range default `' '`) is a sentence end. -/
theorem findBreakDown_eq_none (l : List Char)
    (h : ∀ j, isSentenceEnd (l.getD j ' ') = false) (stop : Nat) :
    ∀ i, findBreakDown l stop i = none := by
  intro i
  induction i with
  | zero => rfl
  | succ n ih =>
    rw [findBreakDown]
    split
    case isTrue => rfl
    case isFalse => rw [h (n + 1)]; simpa using ih

/-- `headTrim` is the identity on terminator-free text. -/
theorem headTrim_eq_self (l : List Char)
    (h : ∀ j, isSentenceEnd (l.getD j ' ') = false) : headTrim l = l := by
  rw [headTrim, findBreakDown_eq_none l h]

/-- The forward sentence scan finds nothing in terminator-free text. -/
theorem dropToSentence_eq_none :
    ∀ (l : List Char), (∀ c ∈ l, isSentenceEnd c = false) →
    ∀ fuel, dropToSentence fuel l = none := by
  intro l
  induction l with
  | nil => intro _ fuel; cases fuel <;> rfl
  | cons c rest ih =>
    intro h fuel
    cases fuel with
    | zero => rfl
    | succ n =>
      rw [dropToSentence, h c (by simp)]
      exact ih (fun x hx => h x (by simp [hx])) n

/-- `tailTrim` is the identity on terminator-free text. -/
theorem tailTrim_eq_self (l : List Char)
    (h : ∀ c ∈ l, isSentenceEnd c = false) : tailTrim l = l := by
  rw [tailTrim, dropToSentence_eq_none l h]

/-- Positions of a character-replicate read (with default) as either the
replicated character or the default. -/
theorem replicate_getD (c d : Char) :
    ∀ (n j : Nat), (List.replicate n c).getD j d = c ∨
      (List.replicate n c).getD j d = d := by
  intro n
  induction n with
  | zero => intro j; right; cases j <;> rfl
  | succ m ih =>
    intro j
    cases j with
    | zero => left; rfl
    | succ k => simpa [List.replicate_succ] using ih k

/-- `handle_error` on a rate-limited error with no retry hint: classify
`"retry"` after sleeping the default delay. -/
theorem handleError_rateLimitNoHint (hasApiClient : Bool)
    (ans : InteractiveAnswers) :
    handleError rateLimitNoHint hasApiClient ans =
      (some "retry", [DEFAULT_RETRY_DELAY]) := by
  rfl

/-- Characterization of the `while True:` loop of `retry_with_backoff` on
persistently rate-limited errors: starting from attempt index `k` with the
current delay at its closed form `min (2^k) 16`, after `fuel` further
iterations the loop has slept `[1, min (2^(k+i)) 16]` for each iteration
`i`, has made `fuel` more attempts, and is still running. -/
theorem retryWithBackoff_rateLimited_run (hasApiClient : Bool)
    (ans : InteractiveAnswers) :
    ∀ (fuel k : Nat) (log : List Nat),
    retryWithBackoff alwaysRateLimited hasApiClient ans 16 fuel
        (min (2 ^ k) 16) k log =
      (log ++ ((List.range fuel).map
        (fun i => [DEFAULT_RETRY_DELAY, min (2 ^ (k + i)) 16])).flatten,
       k + fuel, .running) := by
  intro fuel
  induction fuel with
  | zero => intro k log; simp [retryWithBackoff]
  | succ n ih =>
    intro k log
    rw [retryWithBackoff]
    have hstep : alwaysRateLimited k = .error rateLimitNoHint := rfl
    rw [hstep]
    simp only [handleError_rateLimitNoHint]
    rw [if_pos trivial]
    have hcap : min (2 ^ k) 16 * 2 ⊓ 16 = min (2 ^ (k + 1)) 16 := by
      have : (2 : Nat) ^ (k + 1) = 2 ^ k * 2 := by ring
      omega
    rw [hcap, ih (k + 1)]
    simp only [Prod.mk.injEq]
    refine ⟨?_, by omega, trivial⟩
    rw [List.range_succ_eq_map, List.map_cons, List.flatten_cons, List.map_map]
    have hfun : ((fun i => [DEFAULT_RETRY_DELAY, 2 ^ (k + i) ⊓ 16]) ∘ Nat.succ) =
        (fun i => [DEFAULT_RETRY_DELAY, 2 ^ (k + 1 + i) ⊓ 16]) := by
      funext i
      have he : k + Nat.succ i = k + 1 + i := by omega
      simp [Function.comp, he]
    rw [hfun]
    simp [List.append_assoc]

/-! ## Claim theorems -/

/-- C1.  The claim says `retry_with_backoff` makes at most
`max_retries` (default 3) attempts and terminates after the last one.
The code's `while True:` loop never consults `self.max_retries`: on a
transport call that fails rate-limited on every attempt, after any number
`fuel` of loop iterations the engine has made exactly `fuel` attempts and
is still running — in particular it is still running after
`DEFAULT_MAX_RETRIES` attempts and retries indefinitely instead of
terminating. -/
theorem claim_C1_retry_never_terminates (hasApiClient : Bool)
    (ans : InteractiveAnswers) (fuel : Nat) :
    (retryWithBackoff alwaysRateLimited hasApiClient ans
        DEFAULT_MAX_RETRY_DELAY fuel DEFAULT_RETRY_DELAY 0 []).2 =
      (fuel, RetryOutcome.running) := by
  have h := retryWithBackoff_rateLimited_run hasApiClient ans fuel 0 []
  simpa [DEFAULT_MAX_RETRY_DELAY, DEFAULT_RETRY_DELAY] using congrArg Prod.snd h

/-- C4.  Under persistent rate-limiting with no server hint, the claim
says the engine sleeps exactly `min(initialDelay * 2^(k-1), maxDelay)`
before retry `k` and makes exactly `maxAttempts` attempts.  The code
instead sleeps twice per failed attempt — `handle_error` sleeps the
1-second default hint and the backoff loop then sleeps
`min(2^(k-1), 16)` — and never stops: the complete sleep log after `fuel`
iterations is `[1, min(2^i, 16)]` joined over `i < fuel`, with the loop
still running. -/
theorem claim_C4_retry_sleep_log (hasApiClient : Bool)
    (ans : InteractiveAnswers) (fuel : Nat) :
    retryWithBackoff alwaysRateLimited hasApiClient ans
        DEFAULT_MAX_RETRY_DELAY fuel DEFAULT_RETRY_DELAY 0 [] =
      (((List.range fuel).map
          (fun i => [DEFAULT_RETRY_DELAY, min (2 ^ i) 16])).flatten,
       fuel, RetryOutcome.running) := by
  have h := retryWithBackoff_rateLimited_run hasApiClient ans fuel 0 []
  simpa [DEFAULT_MAX_RETRY_DELAY, DEFAULT_RETRY_DELAY] using h

/-- C8.  `switch_model` with an identifier absent from `MODEL_CONFIGS`
returns `False` and leaves the whole session state (in particular the
active model and the max-tokens ceiling) unchanged; with a present
identifier it returns `True`, sets the active model to it and the
max-tokens ceiling to the catalog entry's `max_tokens`. -/
theorem claim_C8_switch_model (st : ChatState) (id : String) :
    (lookupConfig id = none → switchModel st id = (false, st)) ∧
    (∀ cfg, lookupConfig id = some cfg →
      switchModel st id = (true, { st with model := id, maxTokens := cfg.maxTokens })) := by
  constructor
  · intro h
    simp [switchModel, h]
  · intro cfg h
    simp [switchModel, h]

/-- Witness for C8 at the unknown identifier `"deepseek-reasoner"` (the
stale id the composer compares against) and at the known `"gpt-4o"`. -/
theorem claim_C8_witness :
    switchModel initChatState "deepseek-reasoner" = (false, initChatState) ∧
    switchModel initChatState "gpt-4o" =
      (true, { initChatState with model := "gpt-4o", maxTokens := 16384 }) := by
  refine ⟨(claim_C8_switch_model initChatState "deepseek-reasoner").1 (by decide),
          (claim_C8_switch_model initChatState "gpt-4o").2
            { name := "gpt-4o", displayName := "GPT-4o", provider := "openai",
              contextLength := 128000, maxTokens := 16384,
              defaultMaxTokens := 4096, supportsJson := true,
              supportsFunctionCalling := true, supportsStreaming := true }
            (by decide)⟩

/-- C9.  Each sampling-parameter setter rejects out-of-domain input
(temperature outside 0–2 by number and unknown preset names, penalties
outside −2–2, top-p outside 0–1) by returning `False` with the entire
session state identical to what it was before the call. -/
theorem claim_C9_setters_reject (st : ChatState) :
    (∀ t : ℚ, ¬(0 ≤ t ∧ t ≤ 2) → setTemperature st (.num t) = (false, st)) ∧
    (∀ s : String, TEMPERATURE_PRESETS.lookup (pyToLower s) = none →
      setTemperature st (.name s) = (false, st)) ∧
    (∀ p : ℚ, ¬(-2 ≤ p ∧ p ≤ 2) → setFrequencyPenalty st p = (false, st)) ∧
    (∀ p : ℚ, ¬(-2 ≤ p ∧ p ≤ 2) → setPresencePenalty st p = (false, st)) ∧
    (∀ q : ℚ, ¬(0 ≤ q ∧ q ≤ 1) → setTopP st q = (false, st)) := by
  refine ⟨fun t ht => ?_, fun s hs => ?_, fun p hp => ?_, fun p hp => ?_,
          fun q hq => ?_⟩
  · simp [setTemperature, ht]
  · simp [setTemperature, hs]
  · simp [setFrequencyPenalty, hp]
  · simp [setPresencePenalty, hp]
  · simp [setTopP, hq]

/-- Witness for C9: concrete rejected calls on the initial state. -/
theorem claim_C9_witness :
    setTemperature initChatState (.num 3) = (false, initChatState) ∧
    setTemperature initChatState (.name "hot") = (false, initChatState) ∧
    setFrequencyPenalty initChatState 3 = (false, initChatState) ∧
    setPresencePenalty initChatState (-5/2) = (false, initChatState) ∧
    setTopP initChatState 2 = (false, initChatState) := by
  refine ⟨(claim_C9_setters_reject initChatState).1 3 (by norm_num),
          (claim_C9_setters_reject initChatState).2.1 "hot" (by decide),
          (claim_C9_setters_reject initChatState).2.2.1 3 (by norm_num),
          (claim_C9_setters_reject initChatState).2.2.2.1 (-5/2) (by norm_num),
          (claim_C9_setters_reject initChatState).2.2.2.2 2 (by norm_num)⟩

/-- C10.  After any `toggle_json_mode` call, from any state, the message
at position 0 is a system message whose content is one of two fixed
built-in strings — the JSON directive when the toggle enabled JSON mode,
the plain default otherwise — so whatever custom system message was set
before the toggle is overwritten, in either direction. -/
theorem claim_C10_json_toggle_overwrites (st : ChatState) :
    (toggleJsonMode st).jsonMode = !st.jsonMode ∧
    ((toggleJsonMode st).messages.head?.map Message.role) = some "system" ∧
    ((toggleJsonMode st).messages.head?.map Message.content) =
      some (if st.jsonMode then jsonOffContent else jsonOnContent) ∧
    jsonOnContent ≠ jsonOffContent := by
  refine ⟨?_, ?_, ?_, by decide⟩ <;>
  · cases hj : st.jsonMode <;>
      cases hm : st.messages with
      | nil => simp [toggleJsonMode, setSystemMessage, hj, hm]
      | cons m rest =>
        by_cases hr : m.role = "system" <;>
          simp [toggleJsonMode, setSystemMessage, hj, hm, hr]

/-- C2 counterexample.  In a prefix-mode session whose only stored
message is the user message `"hi"`, `prepare_chat_request` leaves the
stored history holding an assistant-role message with a prefix flag: the
rewrite is persisted into `SessionState.messages`, not kept ephemeral. -/
theorem claim_C2_counterexample :
    cexC2State.prefixMode = true ∧
    cexC2State.messages.map Message.role = ["user"] ∧
    (prepareChatRequest cexC2State).2.messages =
      [{ role := "assistant", content := "hi".toList, prefixFlag := true }] ∧
    (prepareChatRequest cexC2State).2.messages ≠ cexC2State.messages := by
  decide

/-- C2 amended.  With prefix mode enabled and a user-role last message,
`prepare_chat_request` replaces the last stored message by an
assistant-role copy of its content marked as a prefix, and — because
`kwargs["messages"]` aliases `self.messages` — the request payload
carries exactly that rewritten list: the rewrite is applied to the
ephemeral payload AND persisted into session history. -/
theorem claim_C2_prefix_rewrite_persisted (st : ChatState) (m : Message)
    (hpm : st.prefixMode = true) (hlast : st.messages.getLast? = some m)
    (hrole : m.role = "user") :
    (prepareChatRequest st).2.messages =
      st.messages.dropLast ++
        [{ role := "assistant", content := m.content, prefixFlag := true }] ∧
    (prepareChatRequest st).1.messages = (prepareChatRequest st).2.messages := by
  simp [prepareChatRequest, hpm, hlast, hrole]

/-- Witness for C2 amended at the concrete prefix-mode session. -/
theorem claim_C2_witness :
    (prepareChatRequest cexC2State).2.messages =
      cexC2State.messages.dropLast ++
        [{ role := "assistant", content := "hi".toList, prefixFlag := true }] ∧
    (prepareChatRequest cexC2State).1.messages =
      (prepareChatRequest cexC2State).2.messages :=
  claim_C2_prefix_rewrite_persisted cexC2State
    { role := "user", content := "hi".toList } (by decide) (by decide) (by decide)

/-- C3.  The claim says that with the reasoner model active the request
contains no sampling fields.  The catalog's only reasoner entry is keyed
`"deepseek/deepseek-reasoner"`, and switching to it succeeds; but the
composer's guard compares against the stale id `"deepseek-reasoner"`,
which is absent from the catalog, so the request composed for the
catalog's reasoner carries temperature, top-p and both penalties. -/
theorem claim_C3_reasoner_sampling_emitted :
    (switchModel initChatState "deepseek/deepseek-reasoner").1 = true ∧
    (lookupConfig "deepseek/deepseek-reasoner").isSome = true ∧
    lookupConfig "deepseek-reasoner" = none ∧
    (prepareChatRequest reasonerState).1.temperature = some DEFAULT_TEMPERATURE ∧
    (prepareChatRequest reasonerState).1.topP = some 1 ∧
    (prepareChatRequest reasonerState).1.frequencyPenalty = some 0 ∧
    (prepareChatRequest reasonerState).1.presencePenalty = some 0 := by
  decide

/-- C5 counterexample.  From a state satisfying the history invariant,
`add_message` with role `"system"` appends a second-position system
message: the claim's "for every sequence of add_message calls" fails,
because nothing stops an appended system role from landing past
position 0. -/
theorem claim_C5_counterexample :
    cexC5Msgs.length ≤ MAX_HISTORY_LENGTH ∧
    noSystemAfterHead cexC5Msgs ∧
    ¬ noSystemAfterHead (addMessage cexC5Msgs "system" ['s']) := by
  decide

/-- C5 amended.  Every `add_message` call leaves the history at no more
than `MAX_HISTORY_LENGTH` messages; and provided the appended role is not
`"system"`, the invariant "any system message is unique and at
position 0" is preserved by the append-and-trim operation (hence by every
sequence of such calls). -/
theorem claim_C5_history_invariant (msgs : List Message) (role : String)
    (content : List Char) :
    (addMessage msgs role content).length ≤ MAX_HISTORY_LENGTH ∧
    (noSystemAfterHead msgs → role ≠ "system" →
      noSystemAfterHead (addMessage msgs role content)) := by
  have hm1 : noSystemAfterHead msgs → role ≠ "system" →
      ∀ x ∈ (msgs ++ [{ role := role, content := content : Message }]).drop 1,
        x.role ≠ "system" := by
    intro hInv hrole x hx
    cases msgs with
    | nil =>
      rw [List.nil_append, List.drop_one, List.tail_cons] at hx
      simp at hx
    | cons a rest =>
      rw [List.cons_append, List.drop_one, List.tail_cons] at hx
      rcases List.mem_append.mp hx with h | h
      · exact hInv x (by simpa using h)
      · have : x = { role := role, content := content : Message } := by simpa using h
        rw [this]
        exact hrole
  unfold addMessage
  by_cases hlen : MAX_HISTORY_LENGTH <
      (msgs ++ [{ role := role, content := content : Message }]).length
  · rw [if_pos hlen]
    set m := msgs ++ [{ role := role, content := content : Message }] with hmdef
    have hlen2 : 100 < m.length := hlen
    by_cases hr : m.headI.role = "system"
    · rw [if_pos hr]
      refine ⟨?_, ?_⟩
      · simp only [List.length_cons, List.length_drop]
        unfold MAX_HISTORY_LENGTH
        omega
      · intro hInv hrole x hx
        rw [List.drop_one, List.tail_cons] at hx
        have hdd : m.drop (m.length - (MAX_HISTORY_LENGTH - 1)) =
            (m.drop 1).drop (m.length - (MAX_HISTORY_LENGTH - 1) - 1) := by
          rw [List.drop_drop]
          congr 1
          unfold MAX_HISTORY_LENGTH
          omega
        rw [hdd] at hx
        exact hm1 hInv hrole x (List.drop_subset _ _ hx)
    · rw [if_neg hr]
      refine ⟨?_, ?_⟩
      · simp only [List.length_drop]
        unfold MAX_HISTORY_LENGTH
        omega
      · intro hInv hrole x hx
        have hdd : (m.drop (m.length - MAX_HISTORY_LENGTH)).drop 1 =
            (m.drop 1).drop (m.length - MAX_HISTORY_LENGTH) := by
          rw [List.drop_drop, List.drop_drop]
          congr 1
          omega
        rw [hdd] at hx
        exact hm1 hInv hrole x (List.drop_subset _ _ hx)
  · rw [if_neg hlen]
    refine ⟨?_, hm1⟩
    simp only [List.length_append, List.length_singleton] at hlen ⊢
    omega

/-- Witness for C5 amended: appending a user message to the empty
history. -/
theorem claim_C5_witness :
    (addMessage [] "user" ['h']).length ≤ MAX_HISTORY_LENGTH ∧
    noSystemAfterHead (addMessage [] "user" ['h']) :=
  ⟨(claim_C5_history_invariant [] "user" ['h']).1,
   (claim_C5_history_invariant [] "user" ['h']).2 (by decide) (by decide)⟩

/-- C6.  Feeding the fragments `["Hello, ", "world.", " Bye"]` with the
default thresholds, whatever the stream's timing: the value folded into
history is one assistant message whose content is exactly the
concatenation `"Hello, world. Bye"` (never a windowed display form), and
the flush trace contains at least one `live.update` whose accumulated
text already covers the sentence terminator of `"world."` (the
completion-render flush does, whatever mid-stream flushes the timing
produced). -/
theorem claim_C6_stream_fold_exact (t0 t1 t2 t3 : ℚ) :
    (streamResponse {} [] t0 (c6Chunks t1 t2 t3)).2.1 =
      "Hello, world. Bye".toList ∧
    (streamResponse {} [] t0 (c6Chunks t1 t2 t3)).1 =
      [{ role := "assistant", content := "Hello, world. Bye".toList }] ∧
    ∃ e ∈ (streamResponse {} [] t0 (c6Chunks t1 t2 t3)).2.2,
      "Hello, world.".toList.length ≤ e.accumulated.length := by
  have hfull : ((c6Chunks t1 t2 t3).foldl (streamStep {})
      { fullResponse := [], buffer := [], lastUpdateTime := t0,
        flushes := [], chunkCount := 0 }).fullResponse =
      "Hello, world. Bye".toList := by
    rw [foldl_streamStep_fullResponse]
    rfl
  have hne : ("Hello, world. Bye".toList).isEmpty = false := by decide
  simp only [streamResponse, hfull, hne, Bool.false_eq_true, if_false,
    List.nil_append]
  refine ⟨trivial, trivial, ?_⟩
  refine ⟨{ accumulated := "Hello, world. Bye".toList,
            display := prepareFinalDisplayContent "Hello, world. Bye".toList
              ({} : StreamConfig).maxVisibleChars }, ?_, by decide⟩
  exact List.mem_append_right _ (List.mem_singleton_self _)

/-- Window algebra of the final render at 10,000 characters against an
8,000-character budget: head slice 2000, tail slice 8000 − 2200 = 5800. -/
theorem prepareFinalDisplayContent_at_10000 (s : List Char)
    (hs : s.length = 10000) :
    prepareFinalDisplayContent s 8000 =
      headTrim (s.take 2000) ++ elisionMarker ++ tailTrim (s.drop 4200) := by
  simp only [prepareFinalDisplayContent, hs]
  norm_num

/-- The full accumulated text of a completed stream is folded into
history untouched: one assistant message whose content is exactly the
concatenation of the fragments. -/
theorem streamResponse_folds_full (cfg : StreamConfig)
    (messages : List Message) (t0 : ℚ) (chunks : List Chunk)
    (s : List Char) (hch : (chunks.filterMap Chunk.content).flatten = s)
    (hne : s.isEmpty = false) :
    (streamResponse cfg messages t0 chunks).1 =
      messages ++ [{ role := "assistant", content := s }] ∧
    (streamResponse cfg messages t0 chunks).2.1 = s := by
  have hfull : (chunks.foldl (streamStep cfg)
      { fullResponse := [], buffer := [], lastUpdateTime := t0,
        flushes := [], chunkCount := 0 }).fullResponse = s := by
    rw [foldl_streamStep_fullResponse]
    simpa using hch
  simp only [streamResponse, hfull, hne, Bool.false_eq_true, if_false]
  refine ⟨?_, ?_⟩ <;> trivial

/-- C7 amended.  For a 10,000-character accumulated text with the default
8,000-character visible budget, the final render is
`headTrim(first 2000) ++ elision marker ++ tailTrim(last 5800)` — the tail
slice is `visible budget − 2200` characters (a fixed head-plus-marker
allowance of 2200), not `visible budget − head − marker length` — while
the value folded into history by `stream_response` is the full
untruncated text, for any stream whose fragments concatenate to it. -/
theorem claim_C7_final_render (s : List Char) (hs : s.length = 10000) :
    prepareFinalDisplayContent s 8000 =
      headTrim (s.take 2000) ++ elisionMarker ++ tailTrim (s.drop 4200) ∧
    ∀ (t0 : ℚ) (chunks : List Chunk),
      (chunks.filterMap Chunk.content).flatten = s →
      (streamResponse {} [] t0 chunks).1 =
        [{ role := "assistant", content := s }] ∧
      (streamResponse {} [] t0 chunks).2.1 = s := by
  refine ⟨prepareFinalDisplayContent_at_10000 s hs, ?_⟩
  intro t0 chunks hch
  have hne : s.isEmpty = false := by
    cases s with
    | nil => simp at hs
    | cons a l => rfl
  have h := streamResponse_folds_full {} [] t0 chunks s hch hne
  exact ⟨by rw [h.1]; rfl, h.2⟩

/-- Witness for C7 amended at the terminator-free 10,000-character text
delivered as a single fragment. -/
theorem claim_C7_witness :
    prepareFinalDisplayContent aText 8000 =
      headTrim (aText.take 2000) ++ elisionMarker ++ tailTrim (aText.drop 4200) ∧
    (streamResponse {} [] 0 [{ content := some aText, time := 0 }]).1 =
      [{ role := "assistant", content := aText }] ∧
    (streamResponse {} [] 0 [{ content := some aText, time := 0 }]).2.1 =
      aText := by
  have hlen : aText.length = 10000 := by
    rw [aText, List.length_replicate]
  have hch : (List.filterMap Chunk.content
      [({ content := some aText, time := 0 } : Chunk)]).flatten = aText := by
    rw [show List.filterMap Chunk.content
        [({ content := some aText, time := 0 } : Chunk)] = [aText] from rfl]
    simp
  have h := claim_C7_final_render aText hlen
  exact ⟨h.1, (h.2 0 [{ content := some aText, time := 0 }] hch).1,
         (h.2 0 [{ content := some aText, time := 0 }] hch).2⟩

/-- C7 counterexample.  On 10,000 repetitions of `'a'` (no sentence
boundary anywhere), the final display is the first 2000 characters, the
48-character elision marker and the last 5800 characters — 7848
characters in all — so no head/tail decomposition around the marker
satisfies the claimed tail size `visible budget − head − marker length`
(which would make the display exactly 8000 characters long). -/
theorem claim_C7_counterexample :
    prepareFinalDisplayContent aText 8000 =
      List.replicate 2000 'a' ++ elisionMarker ++ List.replicate 5800 'a' ∧
    (prepareFinalDisplayContent aText 8000).length = 7848 ∧
    ∀ head tail : List Char,
      prepareFinalDisplayContent aText 8000 = head ++ elisionMarker ++ tail →
      tail.length ≠ 8000 - head.length - elisionMarker.length := by
  have hmark : elisionMarker.length = 48 := by decide
  have hlen : aText.length = 10000 := by
    rw [aText, List.length_replicate]
  have htake : aText.take 2000 = List.replicate 2000 'a' := by
    rw [aText, List.take_replicate]
    congr 1
  have hdrop : aText.drop 4200 = List.replicate 5800 'a' := by
    rw [aText, List.drop_replicate]
  have hhead : headTrim (List.replicate 2000 'a') = List.replicate 2000 'a' := by
    apply headTrim_eq_self
    intro j
    rcases replicate_getD 'a' ' ' 2000 j with h | h <;> rw [h] <;> decide
  have htail : tailTrim (List.replicate 5800 'a') = List.replicate 5800 'a' := by
    apply tailTrim_eq_self
    intro c hc
    rw [List.eq_of_mem_replicate hc]
    decide
  have h1 : prepareFinalDisplayContent aText 8000 =
      List.replicate 2000 'a' ++ elisionMarker ++ List.replicate 5800 'a' := by
    rw [prepareFinalDisplayContent_at_10000 aText hlen, htake, hdrop, hhead,
      htail]
  have h2 : (prepareFinalDisplayContent aText 8000).length = 7848 := by
    rw [h1]
    simp only [List.length_append, List.length_replicate, hmark]
  refine ⟨h1, h2, ?_⟩
  intro head tail heq
  have hlen2 := congrArg List.length heq
  rw [h2] at hlen2
  simp only [List.length_append, hmark] at hlen2
  omega
